import Mathlib

/-!
Verification development for the tigera operator repository
(pkg/render/logstorage.go, pkg/render/fluentd.go,
pkg/controller/logcollector/logcollector_controller.go).

The Go code is shallowly embedded: every definition below mirrors a Go
function or data structure from the repository.  Kubernetes
`resource.Quantity` values are modelled by their exact numeric value in
thousandths of a unit (milli-units), which represents exactly every
quantity the operator manipulates (integral byte counts and `m`-suffixed
CPU quantities).  Machine integers are modelled as `Int` with explicit
wrap-around (`% 2 ^ w`) where Go performs a narrowing conversion.
-/

namespace TigeraOperator

/-! ## resource.Quantity model

A quantity is modelled as an `Int` holding its exact value in milli-units.
`resource.Quantity.Value()` (k8s.io/apimachinery) returns the value
rounded up to the nearest integer away from zero; `qValue` mirrors that
on the milli-unit representation. -/



/-- Go `Quantity.Value()`: the value in whole units, rounded away from zero
(`ScaledValue(0)` rounds up for positive values, down for negative ones). -/
def qValue (m : Int) : Int :=
  if 0 ≤ m then (m + 999) / 1000 else -((-m + 999) / 1000)

/-- Model of `corev1.ResourceList` restricted to the `cpu` and `memory`
keys: each entry is present (`some`) or absent (`none`). -/
structure ResourceList where
  cpu : Option Int
  memory : Option Int
deriving DecidableEq, Repr

/-- Go `ResourceList.Cpu()` returns the stored quantity, or the zero
quantity when the key is absent. -/
def ResourceList.cpuQ (r : ResourceList) : Int := r.cpu.getD 0

/-- Go `ResourceList.Memory()` returns the stored quantity, or the zero
quantity when the key is absent. -/
def ResourceList.memQ (r : ResourceList) : Int := r.memory.getD 0

/-- Model of `corev1.ResourceRequirements`. -/
structure ResourceRequirements where
  limits : ResourceList
  requests : ResourceList
deriving DecidableEq, Repr

/-- Model of `overrideResourceRequirements` (pkg/render/logstorage.go).
Replaces individual default values with the user's values; when the user
provided only a limit (resp. only a request) the default request (resp.
limit) is adjusted whenever the rounded `Value()`s compare accordingly.
The Go map writes through `updatedReq` alias `defaultReq`'s maps, but no
written entry is ever read back (each read is guarded by the absence of
the key that could have been written), so value semantics are faithful. -/
def overrideResourceRequirements (defaultReq userOverrides : ResourceRequirements) :
    ResourceRequirements :=
  let updatedReq := defaultReq
  let updatedReq :=
    match userOverrides.limits.cpu with
    | some l =>
      let u := { updatedReq with limits := { updatedReq.limits with cpu := some l } }
      if userOverrides.requests.cpu = none ∧ qValue l < qValue defaultReq.requests.cpuQ then
        { u with requests := { u.requests with cpu := some l } }
      else u
    | none => updatedReq
  let updatedReq :=
    match userOverrides.limits.memory with
    | some l =>
      let u := { updatedReq with limits := { updatedReq.limits with memory := some l } }
      if userOverrides.requests.memory = none ∧ qValue l < qValue defaultReq.requests.memQ then
        { u with requests := { u.requests with memory := some l } }
      else u
    | none => updatedReq
  let updatedReq :=
    match userOverrides.requests.cpu with
    | some q =>
      let u := { updatedReq with requests := { updatedReq.requests with cpu := some q } }
      if userOverrides.limits.cpu = none ∧ qValue defaultReq.limits.cpuQ < qValue q then
        { u with limits := { u.limits with cpu := some q } }
      else u
    | none => updatedReq
  let updatedReq :=
    match userOverrides.requests.memory with
    | some q =>
      let u := { updatedReq with requests := { updatedReq.requests with memory := some q } }
      if userOverrides.limits.memory = none ∧ qValue defaultReq.limits.memQ < qValue q then
        { u with limits := { u.limits with memory := some q } }
      else u
    | none => updatedReq
  updatedReq

/-! ## JVM heap sizing (`memoryQuantityToJVMHeapSize`) -/

/-- Go `strings.TrimSuffix(s, "i")`: drop one trailing `i` if present. -/
def trimSuffixI (s : String) : String :=
  match s.data.getLast? with
  | some c => if c = 'i' then String.mk s.data.dropLast else s
  | none => s

/-- Go `removeInt64Factors(value, 1024)` (apimachinery `resource` package):
repeatedly divide by 1024 while the value is at least 1024 and divisible,
returning the remaining mantissa and the number of divisions.  Fuel 7
covers every `int64` (`1024 ^ 7 > 2 ^ 63`). -/
def removeFactors1024 : Nat → Int → Int × Nat
  | 0, v => (v, 0)
  | fuel + 1, v =>
    if 1024 ≤ v ∧ v % 1024 = 0 then
      let p := removeFactors1024 fuel (v / 1024)
      (p.1, p.2 + 1)
    else (v, 0)

/-- The binary-SI suffix table used by `Quantity` canonical formatting. -/
def binarySuffix (e : Nat) : String :=
  (["", "Ki", "Mi", "Gi", "Ti", "Pi", "Ei"]).getD e ""

/-- Canonical string of `resource.NewQuantity(v, resource.BinarySI)` for
`1024 ≤ v` (the only values `memoryQuantityToJVMHeapSize` constructs:
after clamping the value is always at least 2097152; below 1024 the Go
formatter would fall back to decimal formatting, which is unreachable
here). -/
def canonicalBinaryString (v : Int) : String :=
  let p := removeFactors1024 7 v
  toString p.1 ++ binarySuffix p.2

/-- The numeric core of `memoryQuantityToJVMHeapSize`
(pkg/render/logstorage.go): the input quantity's value is halved
(`inf.Dec.QuoRound` at scale 0 with `RoundFloor`: `Int.ediv` by 2000 on
the milli-unit representation), rounded down to a multiple of 1024, then
clamped to at least 2097152 and at most 27917287424.  The intermediate
`UnscaledBig().Int64()` narrowing is not modelled because every value
outside the `int64` range is overwritten by one of the clamps, whose
comparisons are performed on the exact `inf.Dec` value. -/
def jvmHeapBytes (qMilli : Int) : Int :=
  let halvedQuantity := qMilli / 2000
  let factor := halvedQuantity / 1024
  let roundedToNearest := factor * 1024
  let newRawMemQuantity := roundedToNearest
  let newRawMemQuantity := if roundedToNearest < 2097152 then 2097152 else newRawMemQuantity
  let newRawMemQuantity := if 27917287424 < roundedToNearest then 27917287424 else newRawMemQuantity
  newRawMemQuantity

/-- Model of `memoryQuantityToJVMHeapSize` (pkg/render/logstorage.go):
format the computed byte count as a binary-SI quantity string and strip
the trailing `i`. -/
def memoryQuantityToJVMHeapSize (qMilli : Int) : String :=
  trimSuffixI (canonicalBinaryString (jvmHeapBytes qMilli))

/-- Restatement of claim C2's byte-value expression: half of the quantity
rounded down to the nearest multiple of 1024 (on the milli-unit
representation, half of the value in bytes is `qMilli / 2000` exactly),
clamped below to 2097152 bytes and above to 27917287424 bytes. -/
def jvmHeapBytesSpec (qMilli : Int) : Int :=
  max 2097152 (min (1024 * (qMilli / 2048000)) 27917287424)

/-! ## NodeSet naming (`nodeSetName`, hash/fnv, encoding/hex) -/

/-- Go `int32(n)` narrowing conversion from `int64`: two's-complement
truncation to 32 bits. -/
def toInt32 (n : Int) : Int := (n + 2147483648) % 4294967296 - 2147483648

/-- Go `hash/fnv` `New64a` followed by `Write`: 64-bit FNV-1a over the
byte sequence.  Offset basis 14695981039346656037, prime 1099511628211,
with `uint64` wrap-around. -/
def fnv1a64 (bytes : List Nat) : Nat :=
  bytes.foldl (fun h b => ((h ^^^ b) * 1099511628211) % 18446744073709551616)
    14695981039346656037

/-- Go `fnv.sum64a.Sum(nil)`: the eight bytes of the hash, big-endian. -/
def fnvSum64 (h : Nat) : List Nat :=
  [h / 72057594037927936 % 256, h / 281474976710656 % 256, h / 1099511627776 % 256,
   h / 4294967296 % 256, h / 16777216 % 256, h / 65536 % 256, h / 256 % 256, h % 256]

/-- Go `encoding/hex` digit table (`const hextable`). -/
def hextable : String := "0123456789abcdef"

/-- Go `encoding/hex` encoding of one byte: high nibble then low nibble. -/
def hexEncodeByte (b : Nat) : List Char :=
  [hextable.data.getD (b / 16) 'x', hextable.data.getD (b % 16) 'x']

/-- Go `hex.EncodeToString`. -/
def hexEncodeToString (bs : List Nat) : String :=
  String.mk (bs.map hexEncodeByte).flatten

/-- Model of `nodeSetName` (pkg/render/logstorage.go).  The
PersistentVolumeClaim template is represented by the result of
`json.Marshal`: `some bytes` on success, `none` on failure (the
`hash.Write` error branch is dead code: `fnv`'s `Write` never fails).
On success the name is the hex encoding of the 64-bit FNV-1a hash of the
serialized template; on failure the fixed name `"es"` is used. -/
def nodeSetName (pvcJson : Option (List Nat)) : String :=
  match pvcJson with
  | none => "es"
  | some templateBytes => hexEncodeToString (fnvSum64 (fnv1a64 templateBytes))

/-! ## NodeSet distribution (`nodeSets`) -/

/-- Model of `operatorv1.NodeSetSelectionAttribute`. -/
structure SelectionAttribute where
  name : String
  nodeLabel : String
  value : String
deriving DecidableEq, Repr

/-- Model of the `NodeSets` entries of `LogStorage.Spec.Nodes`.  Only the
fields read by `nodeSets` are kept; `SelectionAttributes` influences only
the (unmodelled) per-NodeSet config and pod-template affinity, never the
name or count. -/
structure NodeSetConfig where
  selectionAttributes : List SelectionAttribute
deriving DecidableEq, Repr

/-- Model of `operatorv1.Nodes` (`LogStorage.Spec.Nodes`): node count
(`int64`), NodeSet list (Go `nil` and empty slices behave identically in
`nodeSets`, so a plain list suffices), and optional user resource
overrides. -/
structure NodesSpec where
  count : Int
  nodeSets : List NodeSetConfig
  resourceRequirements : Option ResourceRequirements
deriving DecidableEq, Repr

/-- Model of `esv1.NodeSet` restricted to the `Name` and `Count` fields
(the fields the claims are about; `Config`, `VolumeClaimTemplates` and
`PodTemplate` are built from fixed templates and are not modelled).
`Count` is an `int32` in the source; the model stores the value produced
by Go's `int32(...)` conversion. -/
structure NodeSetModel where
  name : String
  count : Int
deriving DecidableEq, Repr

/-- The `for i, nodeSetConfig := range nodeConfig.NodeSets` loop of
`nodeSets` (pkg/render/logstorage.go): `i` is the current index, the
fuel is the number of remaining iterations.  Each NodeSet receives
`baseNumNodes` nodes, plus one for the first `Count % len(NodeSets)`
indices; the loop breaks as soon as a NodeSet would receive fewer than
one node. -/
def nodeSetsLoop (p : String) (baseNumNodes r : Int) : Nat → Nat → List NodeSetModel
  | _, 0 => []
  | i, fuel + 1 =>
    let numNodes := baseNumNodes + (if (i : Int) < r then 1 else 0)
    if numNodes < 1 then []
    else
      { name := p ++ "-" ++ toString i, count := toInt32 numNodes } ::
        nodeSetsLoop p baseNumNodes r (i + 1) fuel

/-- Model of `nodeSets` (pkg/render/logstorage.go).  Returns `none` when
`LogStorage.Spec.Nodes` is nil (the Go function returns a nil slice).
With an empty NodeSets list a single NodeSet carries the whole count;
otherwise the count is spread over the NodeSets by the loop.  Go's
`int64` division and remainder truncate toward zero (`Int.tdiv`,
`Int.tmod`). -/
def nodeSets (pvcJson : Option (List Nat)) (nodeConfig : Option NodesSpec) :
    Option (List NodeSetModel) :=
  match nodeConfig with
  | none => none
  | some cfg =>
    if cfg.nodeSets.length < 1 then
      some [{ name := nodeSetName pvcJson, count := toInt32 cfg.count }]
    else
      some (nodeSetsLoop (nodeSetName pvcJson)
        (cfg.count.tdiv (cfg.nodeSets.length : Int))
        (cfg.count.tmod (cfg.nodeSets.length : Int)) 0 cfg.nodeSets.length)

/-- Concrete `LogStorage.Spec.Nodes` exhibiting the `int32` narrowing in
`nodeSets`: 2^32 nodes over a single NodeSet. -/
def c1BadConfig : NodesSpec :=
  { count := 4294967296, nodeSets := [{ selectionAttributes := [] }],
    resourceRequirements := none }

/-- Concrete `LogStorage.Spec.Nodes`: five nodes over two NodeSets. -/
def c1SmallConfig : NodesSpec :=
  { count := 5, nodeSets := [{ selectionAttributes := [] }, { selectionAttributes := [] }],
    resourceRequirements := none }

/-! ## Inputs for claim C10 -/

/-- The default requirements used in the C10 exhibit: a CPU request of
`1800m` (and a CPU limit of `2`). -/
def c10DefaultReq : ResourceRequirements :=
  { limits := { cpu := some 2000, memory := none },
    requests := { cpu := some 1800, memory := none } }

/-- The user override used in the C10 exhibit: only a CPU limit of
`1500m`, no request. -/
def c10UserOverrides : ResourceRequirements :=
  { limits := { cpu := some 1500, memory := none },
    requests := { cpu := none, memory := none } }

/-! ## Provider auto-detection (`AutoDiscoverProvider`) -/

/-- Model of `operatorv1.Provider` restricted to the values this
controller file produces. -/
inductive Provider where
  | providerNone
  | openShift
  | gke
  | dockerEE
  | eks
  | rke2
deriving DecidableEq, Repr

/-- Model of `autodetectFromGroup`
(pkg/controller/logcollector/logcollector_controller.go) under the
assumption that `ServerGroups()` succeeds: for every API group name, in
order, append OpenShift when the group is `config.openshift.io` and GKE
when it is `networking.gke.io`. -/
def autodetectFromGroup (groups : List String) : List Provider :=
  groups.foldr (fun g acc =>
    (if g = "config.openshift.io" then [Provider.openShift] else []) ++
      (if g = "networking.gke.io" then [Provider.gke] else []) ++ acc) []

/-- Model of `AutoDiscoverProvider`
(pkg/controller/logcollector/logcollector_controller.go) under the
assumption that every underlying API query succeeds (claim C6's
hypothesis): `groups` is the API group list, and the three booleans are
the detection outcomes of `isDockerEE`, `isEKS` and `isRKE2`.  The
second component is true iff a non-nil error is returned (which happens
exactly in the conflicting-detections branch). -/
def detectedProvidersList (groups : List String) (dockeree eks rke2 : Bool) :
    List Provider :=
  let detectedProviders : List Provider := autodetectFromGroup groups
  let detectedProviders :=
    if dockeree then detectedProviders ++ [Provider.dockerEE] else detectedProviders
  let detectedProviders :=
    if eks then detectedProviders ++ [Provider.eks] else detectedProviders
  if rke2 then detectedProviders ++ [Provider.rke2] else detectedProviders

/-- The conflict/single/none decision at the end of
`AutoDiscoverProvider`. -/
def AutoDiscoverProvider (groups : List String) (dockeree eks rke2 : Bool) :
    Provider × Bool :=
  let detectedProviders := detectedProvidersList groups dockeree eks rke2
  if 1 < detectedProviders.length then (Provider.providerNone, true)
  else if detectedProviders.length = 1 then (detectedProviders.headD Provider.providerNone, false)
  else (Provider.providerNone, false)

/-- Claim-side predicate: provider `p` is detected by the heuristics. -/
def isDetected (groups : List String) (dockeree eks rke2 : Bool) : Provider → Prop
  | Provider.providerNone => False
  | Provider.openShift => "config.openshift.io" ∈ groups
  | Provider.gke => "networking.gke.io" ∈ groups
  | Provider.dockerEE => dockeree = true
  | Provider.eks => eks = true
  | Provider.rke2 => rke2 = true

/-- Claim-side count of detected providers. -/
def detectedCount (groups : List String) (dockeree eks rke2 : Bool) : Nat :=
  (if "config.openshift.io" ∈ groups then 1 else 0)
    + (if "networking.gke.io" ∈ groups then 1 else 0)
    + (if dockeree then 1 else 0) + (if eks then 1 else 0) + (if rke2 then 1 else 0)

/-! ## Rendered-object models (`Objects` of logstorage.go and fluentd.go) -/

/-- Model of `corev1.Secret` restricted to name and string data. -/
structure SecretModel where
  name : String
  data : List (String × String)
deriving DecidableEq, Repr

/-- Go map read `data[k]`: the entry's value, or the zero value `""`. -/
def lookupData (d : List (String × String)) (k : String) : String :=
  ((d.find? (fun p => p.1 = k)).map Prod.snd).getD ""

/-- Go map write `data[k] = v`: replace an existing entry or add one. -/
def insertData (d : List (String × String)) (k v : String) : List (String × String) :=
  if d.any (fun p => p.1 = k) then d.map (fun p => if p.1 = k then (k, v) else p)
  else d ++ [(k, v)]

/-- An Elasticsearch or Kibana custom resource already present in the
cluster and handed to the renderer through the configuration. -/
structure ExistingCR where
  deletionTimestamp : Option Nat
deriving DecidableEq, Repr

/-- Model of `operatorv1.LogStorage` restricted to the fields the
renderer reads: the deletion timestamp and `Spec.Nodes`. -/
structure LogStorageCR where
  deletionTimestamp : Option Nat
  nodes : Option NodesSpec
deriving DecidableEq, Repr

/-- A Kubernetes object produced by `Objects()`.  Objects rendered from
fixed templates are identified by the name of the helper that builds
them (`rendered`); objects taken from the configuration, and secrets
copied with `secret.CopyToNamespace`, carry their source data. -/
inductive K8sObj where
  | fromCfgElasticsearch (cr : ExistingCR)
  | fromCfgKibana (cr : ExistingCR)
  | fromCfgSecret (s : SecretModel)
  | fromCfgUnusedTLSSecret (s : Option SecretModel)
  | fromCfgESService
  | fromCfgKbService
  | secretCopy (ns : String) (s : SecretModel)
  | renderedSecret (ns : String) (data : List (String × String))
  | rendered (site : String)
deriving DecidableEq, Repr

/-- Model of `ElasticsearchConfiguration` (pkg/render/logstorage.go)
restricted to the fields `Objects()` reads.  Services are represented by
whether they are present and of type `ExternalName`; key pairs by
whether they are present and use certificate management. -/
structure ESConfig where
  logStorage : Option LogStorageCR
  managementClusterConnection : Bool
  elasticsearch : Option ExistingCR
  kibana : Option ExistingCR
  kubernetesProvider : Provider
  fipsModeEnabled : Bool
  certificateManagement : Bool
  provider : Provider
  pullSecrets : List SecretModel
  usePSP : Bool
  applyTrial : Bool
  elasticsearchUserSecret : Option SecretModel
  curatorSecrets : List SecretModel
  keyStoreSecret : Option SecretModel
  esServiceExternalName : Option Bool
  kbServiceExternalName : Option Bool
  unusedTLSSecret : Option SecretModel
  elasticsearchKeyPairUseCM : Bool
  kibanaKeyPairUseCM : Option Bool
deriving DecidableEq, Repr

/-- The default Elasticsearch container requirements
(`resourceRequirements`, pkg/render/logstorage.go): limits cpu `1`,
memory `4Gi`; requests cpu `250m`, memory `4Gi` (milli-units). -/
def esDefaultResourceRequirements : ResourceRequirements :=
  { limits := { cpu := some 1000, memory := some 4294967296000 },
    requests := { cpu := some 250, memory := some 4294967296000 } }

/-- Model of `resourceRequirements` (pkg/render/logstorage.go): the
defaults, overridden by the user's requirements when provided. -/
def esResourceRequirements (nodes : Option NodesSpec) : ResourceRequirements :=
  match nodes with
  | some ns =>
    match ns.resourceRequirements with
    | some userOverrides => overrideResourceRequirements esDefaultResourceRequirements userOverrides
    | none => esDefaultResourceRequirements
  | none => esDefaultResourceRequirements

/-- Model of `javaOpts` (pkg/render/logstorage.go): the recommended heap
options, wrapped in the BouncyCastle FIPS options (whose trust-store
password is the `KEYSTORE_PASSWORD` entry of the keystore secret) when
FIPS mode is enabled. -/
def javaOpts (cfg : ESConfig) : String :=
  let nodes := cfg.logStorage.bind LogStorageCR.nodes
  let resources := esResourceRequirements nodes
  let base :=
    if (nodes.bind NodesSpec.resourceRequirements).isSome then
      let recommendedHeapSize := memoryQuantityToJVMHeapSize resources.requests.memQ
      "-Xms" ++ recommendedHeapSize ++ " -Xmx" ++ recommendedHeapSize
    else "-Xms2G -Xmx2G"
  if cfg.fipsModeEnabled then
    base ++ " --module-path /usr/share/bc-fips/ " ++
      "-Djavax.net.ssl.trustStore=/usr/share/elasticsearch/config/cacerts.bcfks " ++
      "-Djavax.net.ssl.trustStoreType=BCFKS " ++
      "-Djavax.net.ssl.trustStorePassword=" ++
      lookupData ((cfg.keyStoreSecret.map SecretModel.data).getD []) "KEYSTORE_PASSWORD" ++
      " -Dorg.bouncycastle.fips.approved_only=true"
  else base

/-- The configuration after the `Objects()` FIPS branch sets
`KeyStoreSecret.Data["ES_JAVA_OPTS"]`. -/
def esMutatedConfig (cfg : ESConfig) : ESConfig :=
  { cfg with keyStoreSecret := cfg.keyStoreSecret.map (fun ks =>
      { ks with data := insertData ks.data "ES_JAVA_OPTS" (javaOpts cfg) }) }

/-- `Objects()` mutates its configuration exactly when the LogStorage
deletion path is not taken, no ManagementClusterConnection is present,
FIPS mode is enabled and a keystore secret is present. -/
def esObjectsMutates (cfg : ESConfig) : Prop :=
  (match cfg.logStorage with
    | some ls => ls.deletionTimestamp.isSome
    | none => false) = false ∧
  cfg.managementClusterConnection = false ∧
  cfg.fipsModeEnabled = true ∧
  cfg.keyStoreSecret.isSome = true

instance (cfg : ESConfig) : Decidable (esObjectsMutates cfg) := by
  unfold esObjectsMutates
  infer_instance

/-- The objects appended by `Objects()` before the FIPS/Kibana fork when
no ManagementClusterConnection is present: ECK operator objects, then
the Elasticsearch namespace objects up to the Elasticsearch CR. -/
def esMainPrefixCreates (cfg : ESConfig) : List K8sObj :=
  [K8sObj.rendered "CreateNamespace/tigera-eck-operator",
   K8sObj.rendered "eckOperatorAllowTigeraPolicy"]
  ++ cfg.pullSecrets.map (K8sObj.secretCopy "tigera-eck-operator")
  ++ [K8sObj.rendered "eckOperatorClusterRole",
      K8sObj.rendered "eckOperatorClusterRoleBinding",
      K8sObj.rendered "eckOperatorServiceAccount"]
  ++ (if cfg.provider = Provider.dockerEE
      then [K8sObj.rendered "eckOperatorClusterAdminClusterRoleBinding"] else [])
  ++ (if cfg.provider ≠ Provider.openShift then
        [K8sObj.rendered "elasticsearchClusterRoleBinding",
         K8sObj.rendered "elasticsearchClusterRole"]
        ++ (if cfg.usePSP then
              [K8sObj.rendered "eckOperatorPodSecurityPolicy",
               K8sObj.rendered "elasticsearchPodSecurityPolicy"] else [])
        ++ (if ¬ cfg.fipsModeEnabled then
              [K8sObj.rendered "kibanaClusterRoleBinding",
               K8sObj.rendered "kibanaClusterRole",
               K8sObj.rendered "kibanaPodSecurityPolicy"] else [])
      else [])
  ++ (if cfg.applyTrial then [K8sObj.rendered "elasticEnterpriseTrial"] else [])
  ++ [K8sObj.rendered "eckOperatorStatefulSet"]
  ++ [K8sObj.rendered "CreateNamespace/tigera-elasticsearch",
      K8sObj.rendered "elasticsearchAllowTigeraPolicy",
      K8sObj.rendered "elasticsearchInternalAllowTigeraPolicy",
      K8sObj.rendered "AllowTigeraDefaultDeny/tigera-elasticsearch"]
  ++ (if 0 < cfg.pullSecrets.length
      then cfg.pullSecrets.map (K8sObj.secretCopy "tigera-elasticsearch") else [])
  ++ (match cfg.elasticsearchUserSecret with
      | some s => [K8sObj.fromCfgSecret s]
      | none => [])
  ++ [K8sObj.rendered "elasticsearchServiceAccount",
      K8sObj.rendered "ClusterConfig.ConfigMap",
      K8sObj.rendered "elasticsearchCluster"]

/-- The objects appended by the non-FIPS (Kibana and Curator) branch. -/
def esKibanaBranchCreates (cfg : ESConfig) (kibanaSecrets : List SecretModel) : List K8sObj :=
  [K8sObj.rendered "CreateNamespace/tigera-kibana",
   K8sObj.rendered "kibanaAllowTigeraPolicy",
   K8sObj.rendered "AllowTigeraDefaultDeny/tigera-kibana",
   K8sObj.rendered "kibanaServiceAccount"]
  ++ (if 0 < cfg.pullSecrets.length
      then cfg.pullSecrets.map (K8sObj.secretCopy "tigera-kibana") else [])
  ++ (if 0 < kibanaSecrets.length then kibanaSecrets.map K8sObj.fromCfgSecret else [])
  ++ [K8sObj.rendered "kibanaCR"]
  ++ (if 0 < cfg.curatorSecrets.length then
        [K8sObj.rendered "esCuratorAllowTigeraPolicy"]
        ++ cfg.curatorSecrets.map (K8sObj.secretCopy "tigera-elasticsearch")
        ++ [K8sObj.rendered "esCuratorServiceAccount"]
        ++ (if cfg.provider ≠ Provider.openShift then
              [K8sObj.rendered "curatorClusterRole",
               K8sObj.rendered "curatorClusterRoleBinding"]
              ++ (if cfg.usePSP then [K8sObj.rendered "curatorPodSecurityPolicy"] else [])
            else [])
        ++ [K8sObj.rendered "curatorCronJob"]
      else [])

/-- The objects appended by the FIPS branch: the (just-mutated) keystore
secret and its copy into the Elasticsearch namespace. -/
def esFipsBranchCreates (cfg : ESConfig) : List K8sObj :=
  match (esMutatedConfig cfg).keyStoreSecret with
  | some ks => [K8sObj.fromCfgSecret ks, K8sObj.secretCopy "tigera-elasticsearch" ks]
  | none => []

/-- Deletions of ExternalName services left over from a managed-cluster
conversion. -/
def esServiceDeletes (cfg : ESConfig) : List K8sObj :=
  (if cfg.esServiceExternalName = some true then [K8sObj.fromCfgESService] else [])
  ++ (if cfg.kbServiceExternalName = some true then [K8sObj.fromCfgKbService] else [])

/-- The certificate-management tail of `Objects()`: creations when
certificate management is configured. -/
def certMgmtCreates (cfg : ESConfig) : List K8sObj :=
  if cfg.certificateManagement then
    [K8sObj.fromCfgUnusedTLSSecret cfg.unusedTLSSecret]
    ++ (if cfg.elasticsearchKeyPairUseCM then
          [K8sObj.renderedSecret "tigera-elasticsearch"
            ((cfg.unusedTLSSecret.map SecretModel.data).getD [])] else [])
    ++ (if cfg.kibanaKeyPairUseCM = some true then
          [K8sObj.renderedSecret "tigera-kibana"
            ((cfg.unusedTLSSecret.map SecretModel.data).getD [])] else [])
  else []

/-- The certificate-management tail of `Objects()`: deletion of the
unused TLS secret when certificate management is not configured. -/
def certMgmtDeletes (cfg : ESConfig) : List K8sObj :=
  if cfg.certificateManagement then []
  else
    match cfg.unusedTLSSecret with
    | some s => [K8sObj.fromCfgSecret s]
    | none => []

/-- Model of `elasticsearchComponent.Objects` (pkg/render/logstorage.go).
Returns the objects to create, the objects to delete, and the
configuration as it stands after the call (the Go method mutates
`es.cfg.KeyStoreSecret.Data` in the FIPS branch; every other branch
leaves the configuration untouched).  `kibanaSecrets` is the component's
`kibanaSecrets` field (never populated in this file). -/
def esObjects (cfg : ESConfig) (kibanaSecrets : List SecretModel) :
    List K8sObj × List K8sObj × ESConfig :=
  if (match cfg.logStorage with
      | some ls => ls.deletionTimestamp.isSome
      | none => false) then
    ([],
     (match cfg.elasticsearch with
      | some e => if e.deletionTimestamp = none then [K8sObj.fromCfgElasticsearch e] else []
      | none => [])
     ++ (match cfg.kibana with
         | some k => if k.deletionTimestamp = none then [K8sObj.fromCfgKibana k] else []
         | none => []),
     cfg)
  else if cfg.managementClusterConnection then
    ([K8sObj.rendered "CreateNamespace/tigera-elasticsearch",
      K8sObj.rendered "elasticsearchExternalService"]
     ++ certMgmtCreates cfg,
     certMgmtDeletes cfg,
     cfg)
  else if ¬ cfg.fipsModeEnabled then
    (esMainPrefixCreates cfg ++ esKibanaBranchCreates cfg kibanaSecrets
     ++ [K8sObj.rendered "oidcUserRole", K8sObj.rendered "oidcUserRoleBinding"]
     ++ certMgmtCreates cfg,
     esServiceDeletes cfg ++ certMgmtDeletes cfg,
     cfg)
  else
    (esMainPrefixCreates cfg ++ esFipsBranchCreates cfg
     ++ [K8sObj.rendered "oidcUserRole", K8sObj.rendered "oidcUserRoleBinding"]
     ++ certMgmtCreates (esMutatedConfig cfg),
     [K8sObj.rendered "kibanaCR", K8sObj.rendered "curatorCronJob"]
     ++ esServiceDeletes (esMutatedConfig cfg) ++ certMgmtDeletes (esMutatedConfig cfg),
     esMutatedConfig cfg)

/-- The operating system a fluentd component is rendered for. -/
inductive OSType where
  | linux
  | windows
deriving DecidableEq, Repr

/-- Model of `render.SplunkCredential`. -/
structure SplunkCredential where
  token : String
  certificate : String
deriving DecidableEq, Repr

/-- Model of `FluentdConfiguration` (pkg/render/fluentd.go) restricted
to the fields `Objects()` reads. -/
structure FluentdConfig where
  kubernetesProvider : Provider
  osType : OSType
  pullSecrets : List SecretModel
  esSecrets : List SecretModel
  s3Credential : Option (String × String)
  splkCredential : Option SplunkCredential
  filters : Option Unit
  eksConfig : Option Unit
  usePSP : Bool
deriving DecidableEq, Repr

/-- Model of `fluentdComponent.Objects` (pkg/render/fluentd.go): a
straight-line object-list builder; nothing is deleted and the
configuration is read-only (returned unchanged to state the frame
property). -/
def fluentdObjects (c : FluentdConfig) : List K8sObj × List K8sObj × FluentdConfig :=
  ([K8sObj.rendered "CreateNamespace/tigera-fluentd",
    K8sObj.rendered "allowTigeraPolicy"]
   ++ c.pullSecrets.map (K8sObj.secretCopy "tigera-fluentd")
   ++ [K8sObj.rendered "metricsService"]
   ++ (if c.kubernetesProvider = Provider.gke
       then [K8sObj.rendered "fluentdResourceQuota"] else [])
   ++ (if c.s3Credential.isSome then [K8sObj.rendered "s3CredentialSecret"] else [])
   ++ (match c.splkCredential with
       | some cred =>
         [K8sObj.rendered "splunkFluentdTokenSecret"]
         ++ (if cred.certificate.length ≠ 0
             then [K8sObj.rendered "splunkFluentdCertificateSecret"] else [])
       | none => [])
   ++ (if c.filters.isSome then [K8sObj.rendered "filtersConfigMap"] else [])
   ++ (if c.eksConfig.isSome ∧ c.osType = OSType.linux then
         (if c.kubernetesProvider ≠ Provider.openShift then
            [K8sObj.rendered "eksLogForwarderClusterRole",
             K8sObj.rendered "eksLogForwarderClusterRoleBinding"]
            ++ (if c.usePSP then [K8sObj.rendered "eksLogForwarderPodSecurityPolicy"] else [])
          else [])
         ++ [K8sObj.rendered "eksLogForwarderServiceAccount",
             K8sObj.rendered "eksLogForwarderSecret",
             K8sObj.rendered "eksLogForwarderDeployment"]
       else [])
   ++ (if c.kubernetesProvider ≠ Provider.openShift ∧ c.osType = OSType.linux then
         [K8sObj.rendered "fluentdClusterRole",
          K8sObj.rendered "fluentdClusterRoleBinding"]
         ++ (if c.usePSP then [K8sObj.rendered "fluentdPodSecurityPolicy"] else [])
       else [])
   ++ c.esSecrets.map (K8sObj.secretCopy "tigera-fluentd")
   ++ [K8sObj.rendered "fluentdServiceAccount",
       K8sObj.rendered "packetCaptureApiRole",
       K8sObj.rendered "packetCaptureApiRoleBinding",
       K8sObj.rendered "daemonset"],
   [], c)

/-- A FIPS-enabled configuration with an empty-data keystore secret
(ManagementClusterConnection absent, LogStorage not being deleted). -/
def c3FipsConfig : ESConfig :=
  { logStorage := some { deletionTimestamp := none, nodes := none },
    managementClusterConnection := false,
    elasticsearch := none,
    kibana := none,
    kubernetesProvider := Provider.providerNone,
    fipsModeEnabled := true,
    certificateManagement := false,
    provider := Provider.providerNone,
    pullSecrets := [],
    usePSP := false,
    applyTrial := false,
    elasticsearchUserSecret := none,
    curatorSecrets := [],
    keyStoreSecret := some { name := "tigera-secure-elasticsearch-keystore", data := [] },
    esServiceExternalName := none,
    kbServiceExternalName := none,
    unusedTLSSecret := none,
    elasticsearchKeyPairUseCM := false,
    kibanaKeyPairUseCM := none }

/-- The same configuration with FIPS mode disabled: no mutation path. -/
def c3PureConfig : ESConfig :=
  { c3FipsConfig with fipsModeEnabled := false }

/-- A concrete fluentd configuration. -/
def c3FluentdConfig : FluentdConfig :=
  { kubernetesProvider := Provider.providerNone,
    osType := OSType.linux,
    pullSecrets := [],
    esSecrets := [],
    s3Credential := none,
    splkCredential := none,
    filters := none,
    eksConfig := none,
    usePSP := false }

/-- A LogStorage undergoing deletion, with an Elasticsearch CR still
present and no Kibana CR. -/
def c9Config : ESConfig :=
  { c3PureConfig with
    logStorage := some { deletionTimestamp := some 1, nodes := none },
    elasticsearch := some { deletionTimestamp := none } }

/-! ## LogCollector controller (`Reconcile`) -/

/-- Outcome of a Kubernetes `Get`-style call: success, a NotFound error,
or any other error. -/
inductive Fetch3 where
  | ok
  | notFound
  | otherErr
deriving DecidableEq, Repr

/-- Outcome of a call that can fail, or succeed returning nil or a
value (`GetCertificate`, credential lookups, node listings). -/
inductive Got3 where
  | fetchErr
  | okNil
  | okSome
deriving DecidableEq, Repr

/-- One execution's environment for `Reconcile`
(pkg/controller/logcollector/logcollector_controller.go): the outcome of
every external call and readiness check, in program order.  Reconcile is
a pure function of this environment. -/
structure Env where
  getLogCollector : Fetch3
  fillDefaultsModified : Bool
  patchOk : Bool
  apiServerReady : Bool
  tierWatchReady : Bool
  tierGet : Fetch3
  licenseAPIReady : Bool
  licenseFetch : Fetch3
  installationGet : Fetch3
  esClusterConfigGet : Fetch3
  pullSecretsOk : Bool
  esSecretsGet : Fetch3
  certMgrCreateOk : Bool
  keyPairOk : Bool
  promCert : Got3
  esgwCert : Got3
  exportLogsActive : Bool
  additionalStores : Bool
  s3Present : Bool
  s3Cred : Got3
  splunkPresent : Bool
  splunkCred : Got3
  mccGet : Fetch3
  syslogPresent : Bool
  syslogLogTypesSet : Bool
  syslogHasIDSEvents : Bool
  filtersOk : Bool
  providerEKS : Bool
  eksLogPresent : Bool
  eksConfigOk : Bool
  imageSet1Ok : Bool
  apply1Ok : Bool
  apply2Ok : Bool
  windowsNodes : Got3
  imageSet2Ok : Bool
  apply3Ok : Bool
  statusAvailable : Bool
  statusUpdateOk : Bool
deriving DecidableEq, Repr

/-- What one `Reconcile` execution returns and does: the
`reconcile.Result.RequeueAfter` duration in seconds (`none` for the zero
result), whether the returned error is non-nil, the message of the last
`SetDegraded` call still in effect (`none` after `ClearDegraded` or when
never set), and how many times `CreateOrUpdateOrDelete` was invoked. -/
structure ReconcileOutcome where
  requeueAfterSeconds : Option Nat
  isError : Bool
  degraded : Option String
  applied : Nat
deriving DecidableEq, Repr

/-- Model of `ReconcileLogCollector.Reconcile`
(pkg/controller/logcollector/logcollector_controller.go), in program
order.  Multi-line degraded messages are abbreviated to their fixed
text; the `windowsNodes` error path returns without setting degraded,
matching the source. -/
def Reconcile (e : Env) : ReconcileOutcome :=
  if e.getLogCollector = Fetch3.notFound then
    { requeueAfterSeconds := none, isError := false, degraded := none, applied := 0 }
  else if e.getLogCollector = Fetch3.otherErr then
    { requeueAfterSeconds := none, isError := true,
      degraded := some "Error querying for LogCollector", applied := 0 }
  else if e.fillDefaultsModified = true ∧ e.patchOk = false then
    { requeueAfterSeconds := none, isError := true,
      degraded := some "Failed to set defaults for LogCollector fields", applied := 0 }
  else if e.apiServerReady = false then
    { requeueAfterSeconds := none, isError := false,
      degraded := some "Waiting for Tigera API server to be ready", applied := 0 }
  else if e.tierWatchReady = false then
    { requeueAfterSeconds := some 10, isError := false,
      degraded := some "Waiting for Tier watch to be established", applied := 0 }
  else if e.tierGet = Fetch3.notFound then
    { requeueAfterSeconds := some 10, isError := false,
      degraded := some "Waiting for allow-tigera tier to be created", applied := 0 }
  else if e.tierGet = Fetch3.otherErr then
    { requeueAfterSeconds := none, isError := true,
      degraded := some "Error querying allow-tigera tier", applied := 0 }
  else if e.licenseAPIReady = false then
    { requeueAfterSeconds := some 10, isError := false,
      degraded := some "Waiting for LicenseKeyAPI to be ready", applied := 0 }
  else if e.licenseFetch = Fetch3.notFound then
    { requeueAfterSeconds := some 10, isError := false,
      degraded := some "License not found", applied := 0 }
  else if e.licenseFetch = Fetch3.otherErr then
    { requeueAfterSeconds := some 10, isError := false,
      degraded := some "Error querying license", applied := 0 }
  else if e.installationGet = Fetch3.notFound then
    { requeueAfterSeconds := none, isError := true,
      degraded := some "Installation not found", applied := 0 }
  else if e.installationGet = Fetch3.otherErr then
    { requeueAfterSeconds := none, isError := true,
      degraded := some "Error querying installation", applied := 0 }
  else if e.esClusterConfigGet = Fetch3.notFound then
    { requeueAfterSeconds := none, isError := false,
      degraded := some "Elasticsearch cluster configuration is not available, waiting for it to become available",
      applied := 0 }
  else if e.esClusterConfigGet = Fetch3.otherErr then
    { requeueAfterSeconds := none, isError := true,
      degraded := some "Failed to get the elasticsearch cluster configuration", applied := 0 }
  else if e.pullSecretsOk = false then
    { requeueAfterSeconds := none, isError := true,
      degraded := some "Error retrieving pull secrets", applied := 0 }
  else if e.esSecretsGet = Fetch3.notFound then
    { requeueAfterSeconds := some 5, isError := false,
      degraded := some "Elasticsearch secrets are not available yet, waiting until they become available",
      applied := 0 }
  else if e.esSecretsGet = Fetch3.otherErr then
    { requeueAfterSeconds := none, isError := true,
      degraded := some "Failed to get Elasticsearch credentials", applied := 0 }
  else if e.certMgrCreateOk = false then
    { requeueAfterSeconds := none, isError := true,
      degraded := some "Unable to create the Tigera CA", applied := 0 }
  else if e.keyPairOk = false then
    { requeueAfterSeconds := none, isError := true,
      degraded := some "Error creating TLS certificate", applied := 0 }
  else if e.promCert = Got3.fetchErr then
    { requeueAfterSeconds := none, isError := true,
      degraded := some "Failed to get certificate", applied := 0 }
  else if e.promCert = Got3.okNil then
    { requeueAfterSeconds := some 5, isError := false,
      degraded := some "Prometheus secrets are not available yet, waiting until they become available",
      applied := 0 }
  else if e.esgwCert = Got3.fetchErr then
    { requeueAfterSeconds := none, isError := true,
      degraded := some "Failed to retrieve / validate elasticsearch gateway certificate", applied := 0 }
  else if e.esgwCert = Got3.okNil then
    { requeueAfterSeconds := none, isError := false,
      degraded := some "Elasticsearch gateway certificate are not available yet, waiting until they become available",
      applied := 0 }
  else if e.exportLogsActive = false ∧ e.additionalStores = true then
    { requeueAfterSeconds := none, isError := false,
      degraded := some "Feature is not active", applied := 0 }
  else if e.additionalStores = true ∧ e.s3Present = true ∧ e.s3Cred = Got3.fetchErr then
    { requeueAfterSeconds := none, isError := true,
      degraded := some "Error with S3 credential secret", applied := 0 }
  else if e.additionalStores = true ∧ e.s3Present = true ∧ e.s3Cred = Got3.okNil then
    { requeueAfterSeconds := none, isError := false,
      degraded := some "S3 credential secret does not exist", applied := 0 }
  else if e.additionalStores = true ∧ e.splunkPresent = true ∧ e.splunkCred = Got3.fetchErr then
    { requeueAfterSeconds := none, isError := true,
      degraded := some "Error with Splunk credential secret", applied := 0 }
  else if e.additionalStores = true ∧ e.splunkPresent = true ∧ e.splunkCred = Got3.okNil then
    { requeueAfterSeconds := none, isError := false,
      degraded := some "Splunk credential secret does not exist", applied := 0 }
  else if e.mccGet = Fetch3.otherErr then
    { requeueAfterSeconds := none, isError := true,
      degraded := some "An error occurred while looking for a ManagementClusterConnection", applied := 0 }
  else if e.additionalStores = true ∧ e.syslogPresent = true ∧ e.syslogLogTypesSet = true
      ∧ e.mccGet = Fetch3.ok ∧ e.syslogHasIDSEvents = true then
    { requeueAfterSeconds := none, isError := false,
      degraded := some "IDSEvents option is not supported for Syslog config in a managed cluster",
      applied := 0 }
  else if e.filtersOk = false then
    { requeueAfterSeconds := none, isError := true,
      degraded := some "Error retrieving Fluentd filters", applied := 0 }
  else if e.providerEKS = true ∧ e.eksLogPresent = true ∧ e.eksConfigOk = false then
    { requeueAfterSeconds := none, isError := true,
      degraded := some "Error retrieving EKS Cloudwatch Logs configuration", applied := 0 }
  else if e.imageSet1Ok = false then
    { requeueAfterSeconds := none, isError := true,
      degraded := some "Error with images from ImageSet", applied := 0 }
  else if e.apply1Ok = false then
    { requeueAfterSeconds := none, isError := true,
      degraded := some "Error creating / updating resource", applied := 1 }
  else if e.apply2Ok = false then
    { requeueAfterSeconds := none, isError := true,
      degraded := some "Error creating / updating resource", applied := 2 }
  else if e.windowsNodes = Got3.fetchErr then
    { requeueAfterSeconds := none, isError := true, degraded := none, applied := 2 }
  else if e.windowsNodes = Got3.okSome ∧ e.imageSet2Ok = false then
    { requeueAfterSeconds := none, isError := true,
      degraded := some "Error with images from ImageSet", applied := 2 }
  else if e.windowsNodes = Got3.okSome ∧ e.apply3Ok = false then
    { requeueAfterSeconds := none, isError := true,
      degraded := some "Error creating / updating resource", applied := 3 }
  else
    let applied := if e.windowsNodes = Got3.okSome then 3 else 2
    if e.statusAvailable = false then
      { requeueAfterSeconds := some 30, isError := false, degraded := none, applied := applied }
    else if e.statusUpdateOk = false then
      { requeueAfterSeconds := none, isError := true, degraded := none, applied := applied }
    else
      { requeueAfterSeconds := none, isError := false, degraded := none, applied := applied }

/-- The five prerequisite gates of claim C4: Tigera API server ready,
tier watch established, allow-tigera tier found, license API ready,
license key fetched. -/
def gatesPass (e : Env) : Prop :=
  e.apiServerReady = true ∧ e.tierWatchReady = true ∧ e.tierGet = Fetch3.ok ∧
    e.licenseAPIReady = true ∧ e.licenseFetch = Fetch3.ok

instance (e : Env) : Decidable (gatesPass e) := by
  unfold gatesPass
  infer_instance

/-- An execution in which every call succeeds and no Windows nodes
exist. -/
def envAllOk : Env :=
  { getLogCollector := Fetch3.ok, fillDefaultsModified := false, patchOk := true,
    apiServerReady := true, tierWatchReady := true, tierGet := Fetch3.ok,
    licenseAPIReady := true, licenseFetch := Fetch3.ok, installationGet := Fetch3.ok,
    esClusterConfigGet := Fetch3.ok, pullSecretsOk := true, esSecretsGet := Fetch3.ok,
    certMgrCreateOk := true, keyPairOk := true, promCert := Got3.okSome,
    esgwCert := Got3.okSome, exportLogsActive := true, additionalStores := false,
    s3Present := false, s3Cred := Got3.okSome, splunkPresent := false,
    splunkCred := Got3.okSome, mccGet := Fetch3.notFound, syslogPresent := false,
    syslogLogTypesSet := false, syslogHasIDSEvents := false, filtersOk := true,
    providerEKS := false, eksLogPresent := false, eksConfigOk := true,
    imageSet1Ok := true, apply1Ok := true, apply2Ok := true,
    windowsNodes := Got3.okNil, imageSet2Ok := true, apply3Ok := true,
    statusAvailable := true, statusUpdateOk := true }

/-- The same execution with the tier watch not yet established. -/
def envTierWatchNotReady : Env :=
  { envAllOk with tierWatchReady := false }

/-- The outcome shape of the four 10-second wait gates: requeue after 10
seconds, nil error, a degraded message, nothing applied. -/
def requeue10 (msg : String) : ReconcileOutcome :=
  { requeueAfterSeconds := some 10, isError := false, degraded := some msg, applied := 0 }

end TigeraOperator

namespace TigeraOperator

/-! # Theorems -/

theorem jvmHeapBytes_eq_spec (q : Int) : jvmHeapBytes q = jvmHeapBytesSpec q := by
  have h1 : q / 2000 / 1024 = q / 2048000 := by omega
  simp only [jvmHeapBytes, jvmHeapBytesSpec, h1]
  split_ifs <;> omega

/-- When the base node count is at least one the loop never breaks: it
produces one NodeSet per remaining index. -/
theorem nodeSetsLoop_of_base_pos (p : String) (b r : Int) (hb : 1 ≤ b) :
    ∀ (fuel i : Nat), nodeSetsLoop p b r i fuel =
      (List.range fuel).map (fun j =>
        { name := p ++ "-" ++ toString (i + j),
          count := toInt32 (b + if ((i + j : Nat) : Int) < r then 1 else 0) }) := by
  intro fuel
  induction fuel with
  | zero => intro i; simp [nodeSetsLoop]
  | succ n ih =>
    intro i
    have hpos : ¬ (b + (if (i : Int) < r then (1 : Int) else 0) < 1) := by
      split <;> omega
    simp only [nodeSetsLoop, hpos, if_false, ih (i + 1), List.range_succ_eq_map,
      List.map_cons, List.map_map, List.cons.injEq]
    refine ⟨by simp, ?_⟩
    apply List.map_congr_left
    intro j _
    have harg : i + 1 + j = i + (j + 1) := by omega
    simp [Function.comp, harg]

/-- When the base node count is zero the loop stops at index `r`: only
the first `r` indices receive a (single) node. -/
theorem nodeSetsLoop_of_base_zero (p : String) (r : Int) :
    ∀ (fuel i : Nat), nodeSetsLoop p 0 r i fuel =
      (List.range (min fuel (r - i).toNat)).map (fun j =>
        { name := p ++ "-" ++ toString (i + j), count := toInt32 1 }) := by
  intro fuel
  induction fuel with
  | zero => intro i; simp [nodeSetsLoop]
  | succ n ih =>
    intro i
    by_cases hi : (i : Int) < r
    · have hlt : ¬ ((0 : Int) + (if (i : Int) < r then (1 : Int) else 0) < 1) := by
        simp [hi]
      have hmin' : min (n + 1) (r - ((i : Nat) : Int)).toNat
          = min n (r - (((i + 1 : Nat) : Int))).toNat + 1 := by push_cast; omega
      simp only [nodeSetsLoop, hlt, if_false, ih (i + 1), hmin', List.range_succ_eq_map,
        List.map_cons, List.map_map, List.cons.injEq]
      constructor
      · simp [hi]
      · apply List.map_congr_left
        intro j _
        have harg : i + 1 + j = i + (j + 1) := by omega
        simp [Function.comp, harg]
    · have hmin : min (n + 1) (r - ((i : Nat) : Int)).toNat = 0 := by omega
      have hlt : (0 : Int) + (if (i : Int) < r then (1 : Int) else 0) < 1 := by
        simp [hi]
      simp only [nodeSetsLoop, hlt, if_true, hmin, List.range_zero, List.map_nil]

/-- Sum of a base value plus an extra node for the first `r` indices. -/
theorem sum_range_base_ite (b r : Int) (h0 : 0 ≤ r) :
    ∀ len : Nat, ((List.range len).map (fun (j : Nat) => b + if (j : Int) < r then (1 : Int) else 0)).sum
      = len * b + min r len := by
  intro len
  induction len with
  | zero => simp; omega
  | succ n ih =>
    rw [List.range_succ, List.map_append, List.sum_append, ih]
    simp only [List.map_cons, List.map_nil, List.sum_cons, List.sum_nil]
    split_ifs <;> push_cast <;> ring_nf <;> omega

/-- Sum of the constant one over an index range. -/
theorem sum_range_const_one : ∀ n : Nat, ((List.range n).map (fun (_ : Nat) => (1 : Int))).sum = n := by
  intro n
  induction n with
  | zero => simp
  | succ k ih =>
    rw [List.range_succ, List.map_append, List.sum_append, ih]
    simp

/-- `int32` narrowing is the identity on `[0, 2^31)`. -/
theorem toInt32_eq_self (x : Int) (h0 : 0 ≤ x) (h1 : x < 2147483648) : toInt32 x = x := by
  unfold toInt32
  omega

/-- C1, counterexample: with `spec.Nodes.Count = 2^32` and a single
NodeSet in the NodeSets list, `nodeSets` returns one NodeSet whose
`int32` Count field is `0`: a NodeSet with fewer than one node is
returned, and the Count fields do not sum to the node count. -/
theorem c1_counterexample :
    ((nodeSets none (some c1BadConfig)).getD []).map NodeSetModel.count = [0] ∧
      ¬ ((((nodeSets none (some c1BadConfig)).getD []).map NodeSetModel.count).sum
          = c1BadConfig.count) ∧
      ¬ (∀ x ∈ (nodeSets none (some c1BadConfig)).getD [], 1 ≤ x.count) := by
  refine ⟨?_, ?_, ?_⟩ <;> decide

/-- C1 (amended): for every LogStorage configuration whose `spec.Nodes`
has a non-empty NodeSets list of length `K` and node count `N` with
`0 ≤ N < 2^31` (so that no `int32` narrowing occurs), `nodeSets`
distributes the `N` nodes as evenly as possible: the returned NodeSets'
Count fields sum to `N`, every returned NodeSet at an index below
`N mod K` has Count `⌊N/K⌋ + 1`, every returned NodeSet at a later index
has Count `⌊N/K⌋`, and no NodeSet with fewer than one node is returned
(in particular, when `⌊N/K⌋ = 0` only the first `N mod K` NodeSets are
returned at all). -/
theorem c1_nodeSets_distribution (pvcJson : Option (List Nat)) (cfg : NodesSpec)
    (hne : cfg.nodeSets ≠ []) (h0 : 0 ≤ cfg.count) (h31 : cfg.count < 2147483648) :
    ∃ l, nodeSets pvcJson (some cfg) = some l ∧
      (l.map NodeSetModel.count).sum = cfg.count ∧
      (∀ i (h : i < l.length), (i : Int) < cfg.count % (cfg.nodeSets.length : Int) →
        (l.get ⟨i, h⟩).count = cfg.count / (cfg.nodeSets.length : Int) + 1) ∧
      (∀ i (h : i < l.length), cfg.count % (cfg.nodeSets.length : Int) ≤ (i : Int) →
        (l.get ⟨i, h⟩).count = cfg.count / (cfg.nodeSets.length : Int)) ∧
      (∀ x ∈ l, 1 ≤ x.count) := by
  have hK : 0 < cfg.nodeSets.length := List.length_pos.mpr hne
  have hKL : ¬ (cfg.nodeSets.length < 1) := by omega
  have hKz : ((cfg.nodeSets.length : Int)) ≠ 0 := by exact_mod_cast hK.ne'
  have hKpos : (0 : Int) < (cfg.nodeSets.length : Int) := by exact_mod_cast hK
  have htd : cfg.count.tdiv (cfg.nodeSets.length : Int)
      = cfg.count / (cfg.nodeSets.length : Int) := Int.tdiv_eq_ediv h0 (le_of_lt hKpos)
  have htm : cfg.count.tmod (cfg.nodeSets.length : Int)
      = cfg.count % (cfg.nodeSets.length : Int) := Int.tmod_eq_emod h0 (le_of_lt hKpos)
  have hbr : (cfg.nodeSets.length : Int) * (cfg.count / (cfg.nodeSets.length : Int))
      + cfg.count % (cfg.nodeSets.length : Int) = cfg.count := Int.ediv_add_emod _ _
  have hr0 : 0 ≤ cfg.count % (cfg.nodeSets.length : Int) := Int.emod_nonneg _ hKz
  have hrK : cfg.count % (cfg.nodeSets.length : Int) < (cfg.nodeSets.length : Int) :=
    Int.emod_lt_of_pos _ hKpos
  have hb0 : 0 ≤ cfg.count / (cfg.nodeSets.length : Int) := Int.ediv_nonneg h0 (le_of_lt hKpos)
  have hble : cfg.count / (cfg.nodeSets.length : Int) ≤ cfg.count := by
    have h1 : cfg.count / (cfg.nodeSets.length : Int)
        ≤ (cfg.nodeSets.length : Int) * (cfg.count / (cfg.nodeSets.length : Int)) :=
      le_mul_of_one_le_left hb0 (by exact_mod_cast hK)
    omega
  have hbound : ∀ j : Nat,
      0 ≤ cfg.count / (cfg.nodeSets.length : Int)
          + (if (j : Int) < cfg.count % (cfg.nodeSets.length : Int) then (1 : Int) else 0) ∧
      cfg.count / (cfg.nodeSets.length : Int)
          + (if (j : Int) < cfg.count % (cfg.nodeSets.length : Int) then (1 : Int) else 0)
        < 2147483648 := by
    intro j
    split_ifs with hj
    · have hj0 : (0 : Int) ≤ (j : Int) := by positivity
      have hr1 : 1 ≤ cfg.count % (cfg.nodeSets.length : Int) := by omega
      have hK2 : (2 : Int) ≤ (cfg.nodeSets.length : Int) := by omega
      have h2b : 2 * (cfg.count / (cfg.nodeSets.length : Int))
          ≤ (cfg.nodeSets.length : Int) * (cfg.count / (cfg.nodeSets.length : Int)) :=
        mul_le_mul_of_nonneg_right hK2 hb0
      omega
    · omega
  simp only [nodeSets, hKL, if_false]
  refine ⟨_, rfl, ?_⟩
  rw [htd, htm]
  rcases lt_or_eq_of_le hb0 with hb1 | hb1
  · -- base count at least one: the loop produces all K NodeSets
    rw [nodeSetsLoop_of_base_pos _ _ _ hb1 cfg.nodeSets.length 0]
    have hcount : ∀ j : Nat,
        (({ name := nodeSetName pvcJson ++ "-" ++ toString (0 + j),
            count := toInt32 (cfg.count / (cfg.nodeSets.length : Int)
              + if ((0 + j : Nat) : Int) < cfg.count % (cfg.nodeSets.length : Int)
                then 1 else 0) } : NodeSetModel)).count
          = cfg.count / (cfg.nodeSets.length : Int)
              + if ((j : Nat) : Int) < cfg.count % (cfg.nodeSets.length : Int)
                then 1 else 0 := by
      intro j
      show toInt32 _ = _
      simp only [Nat.zero_add]
      exact toInt32_eq_self _ (hbound j).1 (hbound j).2
    have hlist : List.map NodeSetModel.count
        (List.map (fun j =>
          ({ name := nodeSetName pvcJson ++ "-" ++ toString (0 + j),
             count := toInt32 (cfg.count / (cfg.nodeSets.length : Int)
               + if ((0 + j : Nat) : Int) < cfg.count % (cfg.nodeSets.length : Int)
                 then 1 else 0) } : NodeSetModel)) (List.range cfg.nodeSets.length))
        = List.map (fun (j : Nat) => cfg.count / (cfg.nodeSets.length : Int)
            + if (j : Int) < cfg.count % (cfg.nodeSets.length : Int) then (1 : Int) else 0)
          (List.range cfg.nodeSets.length) := by
      rw [List.map_map]
      exact List.map_congr_left (fun j _ => hcount j)
    refine ⟨?_, ?_, ?_, ?_⟩
    · rw [hlist, sum_range_base_ite _ _ hr0]
      omega
    · intro i h hi
      simp only [List.get_eq_getElem, List.getElem_map, List.getElem_range, Nat.zero_add]
      rw [toInt32_eq_self _ (hbound i).1 (hbound i).2, if_pos hi]
    · intro i h hi
      simp only [List.get_eq_getElem, List.getElem_map, List.getElem_range, Nat.zero_add]
      rw [toInt32_eq_self _ (hbound i).1 (hbound i).2, if_neg (by omega)]
      omega
    · intro x hx
      obtain ⟨j, hj, rfl⟩ := List.mem_map.mp hx
      rw [hcount j]
      split_ifs <;> omega
  · -- base count zero: the loop stops after N mod K NodeSets of one node
    rw [← hb1, nodeSetsLoop_of_base_zero _ _ cfg.nodeSets.length 0]
    have hrc : cfg.count % (cfg.nodeSets.length : Int) = cfg.count := by
      have h' := hbr
      rw [← hb1, mul_zero] at h'
      omega
    have hm : min cfg.nodeSets.length
          ((cfg.count % (cfg.nodeSets.length : Int)) - ((0 : Nat) : Int)).toNat
        = cfg.count.toNat := by
      rw [hrc]
      push_cast
      omega
    rw [hm]
    have hone : ∀ j : Nat,
        (({ name := nodeSetName pvcJson ++ "-" ++ toString (0 + j),
            count := toInt32 1 } : NodeSetModel)).count = (1 : Int) := by
      intro j
      show toInt32 1 = 1
      decide
    have hlist : List.map NodeSetModel.count
        (List.map (fun j =>
          ({ name := nodeSetName pvcJson ++ "-" ++ toString (0 + j),
             count := toInt32 1 } : NodeSetModel)) (List.range cfg.count.toNat))
        = List.map (fun (_ : Nat) => (1 : Int)) (List.range cfg.count.toNat) := by
      rw [List.map_map]
      exact List.map_congr_left (fun j _ => hone j)
    refine ⟨?_, ?_, ?_, ?_⟩
    · rw [hlist, sum_range_const_one]
      omega
    · intro i h _
      simp only [List.get_eq_getElem, List.getElem_map, List.getElem_range]
      show toInt32 1 = _
      rw [show toInt32 1 = 1 from by decide]
      omega
    · intro i h hi
      have hlen : i < cfg.count.toNat := by
        simpa using h
      omega
    · intro x hx
      obtain ⟨j, hj, rfl⟩ := List.mem_map.mp hx
      rw [hone j]

/-- C1 witness: five nodes over two NodeSets give Counts `[3, 2]`. -/
theorem c1_nodeSets_distribution_witness :
    ∃ l, nodeSets none (some c1SmallConfig) = some l ∧
      (l.map NodeSetModel.count).sum = c1SmallConfig.count ∧
      (∀ i (h : i < l.length),
        (i : Int) < c1SmallConfig.count % (c1SmallConfig.nodeSets.length : Int) →
        (l.get ⟨i, h⟩).count
          = c1SmallConfig.count / (c1SmallConfig.nodeSets.length : Int) + 1) ∧
      (∀ i (h : i < l.length),
        c1SmallConfig.count % (c1SmallConfig.nodeSets.length : Int) ≤ (i : Int) →
        (l.get ⟨i, h⟩).count
          = c1SmallConfig.count / (c1SmallConfig.nodeSets.length : Int)) ∧
      (∀ x ∈ l, 1 ≤ x.count) :=
  c1_nodeSets_distribution none c1SmallConfig (by decide) (by decide) (by decide)

/-- Evaluation check: a 4Gi memory quantity yields a 2G JVM heap. -/
theorem memoryQuantityToJVMHeapSize_of_4Gi :
    memoryQuantityToJVMHeapSize 4294967296000 = "2G" := by decide

/-- C2: for every memory resource quantity (given by its exact value in
milli-bytes), `memoryQuantityToJVMHeapSize` returns the canonical
binary-SI string rendering, with the trailing `i` stripped, of the
quantity whose byte value is half the input rounded down to the nearest
multiple of 1024, clamped below to 2097152 bytes (2 MiB) and above to
27917287424 bytes (26 GiB). -/
theorem c2_memoryQuantityToJVMHeapSize (q : Int) :
    memoryQuantityToJVMHeapSize q = trimSuffixI (canonicalBinaryString (jvmHeapBytesSpec q)) := by
  unfold memoryQuantityToJVMHeapSize
  rw [jvmHeapBytes_eq_spec]

/-- C7: `nodeSetName` is a deterministic function of the
PersistentVolumeClaim template (equal marshalled templates give equal
names); on success it is the hexadecimal encoding of the 64-bit FNV-1a
hash of the template's JSON serialization, and on serialization failure
it falls back to the fixed name `"es"`. -/
theorem c7_nodeSetName_deterministic :
    (∀ t1 t2 : Option (List Nat), t1 = t2 → nodeSetName t1 = nodeSetName t2) ∧
    (∀ bs : List Nat, nodeSetName (some bs) = hexEncodeToString (fnvSum64 (fnv1a64 bs))) ∧
    nodeSetName none = "es" :=
  ⟨fun _ _ h => congrArg nodeSetName h, fun _ => rfl, rfl⟩

/-- C7 witness: determinism applied at a concrete template, and the hash
of the empty byte string is the FNV-1a offset basis `cbf29ce484222325`. -/
theorem c7_nodeSetName_deterministic_witness :
    nodeSetName (some [116, 101, 115, 116]) = nodeSetName (some [116, 101, 115, 116]) ∧
    nodeSetName (some []) = "cbf29ce484222325" :=
  ⟨c7_nodeSetName_deterministic.1 (some [116, 101, 115, 116]) (some [116, 101, 115, 116]) rfl,
   (c7_nodeSetName_deterministic.2.1 []).trans (by decide)⟩

/-- C10: with a default CPU request of `1800m` and a user override
providing only a CPU limit of `1500m`, `overrideResourceRequirements`
keeps the request at `1800m`, which exceeds the returned `1500m` limit:
the comparison is made on `Value()`s, which round both quantities up to
`2`, so the documented lowering of the default request does not happen. -/
theorem c10_requests_exceed_limits :
    (overrideResourceRequirements c10DefaultReq c10UserOverrides).requests.cpu = some 1800 ∧
    (overrideResourceRequirements c10DefaultReq c10UserOverrides).limits.cpu = some 1500 ∧
    (1500 : Int) < 1800 := by
  refine ⟨?_, ?_, ?_⟩ <;> decide

/-- Membership in the group-based detection list. -/
theorem autodetectFromGroup_mem (groups : List String) (p : Provider) :
    p ∈ autodetectFromGroup groups ↔
      (p = Provider.openShift ∧ "config.openshift.io" ∈ groups) ∨
        (p = Provider.gke ∧ "networking.gke.io" ∈ groups) := by
  induction groups with
  | nil => simp [autodetectFromGroup]
  | cons g gs ih =>
    show p ∈ (if g = "config.openshift.io" then [Provider.openShift] else []) ++
        (if g = "networking.gke.io" then [Provider.gke] else []) ++ autodetectFromGroup gs ↔ _
    by_cases h1 : g = "config.openshift.io" <;> by_cases h2 : g = "networking.gke.io" <;>
      simp [h1, h2, ih, List.mem_cons] <;> tauto

/-- Length of the group-based detection list, for duplicate-free group
lists (Kubernetes API group names are unique). -/
theorem autodetectFromGroup_length (groups : List String) (h : groups.Nodup) :
    (autodetectFromGroup groups).length =
      (if "config.openshift.io" ∈ groups then 1 else 0) +
        (if "networking.gke.io" ∈ groups then 1 else 0) := by
  induction groups with
  | nil => simp [autodetectFromGroup]
  | cons g gs ih =>
    obtain ⟨hg, hnd⟩ := List.nodup_cons.mp h
    have ihl := ih hnd
    have hne : ("config.openshift.io" : String) ≠ "networking.gke.io" := by decide
    show ((if g = "config.openshift.io" then [Provider.openShift] else []) ++
        (if g = "networking.gke.io" then [Provider.gke] else []) ++
          autodetectFromGroup gs).length = _
    by_cases h1 : g = "config.openshift.io" <;> by_cases h2 : g = "networking.gke.io"
    · exact absurd (h1 ▸ h2) hne
    · have hno : "config.openshift.io" ∉ gs := h1 ▸ hg
      simp [h1, h2, ihl, List.mem_cons, hno, Ne.symm (h1 ▸ hne)]
      try omega
    · have hno : "networking.gke.io" ∉ gs := h2 ▸ hg
      have hgo : ¬ ("config.openshift.io" = g) := fun hc => h1 hc.symm
      simp [h1, h2, ihl, List.mem_cons, hno, hgo]
      try omega
    · have hgo : ¬ ("config.openshift.io" = g) := fun hc => h1 hc.symm
      have hgg : ¬ ("networking.gke.io" = g) := fun hc => h2 hc.symm
      simp [h1, h2, ihl, List.mem_cons, hgo, hgg]
      try omega

/-- The detected-provider list as a concatenation. -/
theorem detectedProvidersList_eq (groups : List String) (dockeree eks rke2 : Bool) :
    detectedProvidersList groups dockeree eks rke2 = autodetectFromGroup groups
      ++ (if dockeree then [Provider.dockerEE] else [])
      ++ (if eks then [Provider.eks] else [])
      ++ (if rke2 then [Provider.rke2] else []) := by
  simp only [detectedProvidersList]
  by_cases h1 : dockeree <;> by_cases h2 : eks <;> by_cases h3 : rke2 <;>
    simp [h1, h2, h3, List.append_assoc]

/-- Length of the detected-provider list equals the number of detected
providers. -/
theorem detectedProvidersList_length (groups : List String) (dockeree eks rke2 : Bool)
    (h : groups.Nodup) :
    (detectedProvidersList groups dockeree eks rke2).length
      = detectedCount groups dockeree eks rke2 := by
  rw [detectedProvidersList_eq]
  simp only [List.length_append, autodetectFromGroup_length groups h, detectedCount]
  by_cases h1 : dockeree <;> by_cases h2 : eks <;> by_cases h3 : rke2 <;>
    simp [h1, h2, h3]

/-- A detected provider is a member of the detected-provider list. -/
theorem isDetected_mem (groups : List String) (dockeree eks rke2 : Bool) (p : Provider)
    (h : isDetected groups dockeree eks rke2 p) :
    p ∈ detectedProvidersList groups dockeree eks rke2 := by
  rw [detectedProvidersList_eq]
  simp only [List.mem_append, autodetectFromGroup_mem]
  cases p with
  | providerNone => exact absurd h (by simp [isDetected])
  | openShift => exact Or.inl (Or.inl (Or.inl (Or.inl ⟨rfl, h⟩)))
  | gke => exact Or.inl (Or.inl (Or.inl (Or.inr ⟨rfl, h⟩)))
  | dockerEE =>
    have hb : dockeree = true := h
    simp [hb]
  | eks =>
    have hb : eks = true := h
    simp [hb]
  | rke2 =>
    have hb : rke2 = true := h
    simp [hb]

/-- C6: assuming every underlying API query succeeds,
`AutoDiscoverProvider` returns the single detected provider and a nil
error when exactly one of OpenShift, GKE, Docker EE, EKS or RKE2 is
detected; `ProviderNone` and a non-nil error when more than one is
detected; and `ProviderNone` with a nil error when none is detected. -/
theorem c6_AutoDiscoverProvider (groups : List String) (dockeree eks rke2 : Bool)
    (hnd : groups.Nodup) :
    (∀ p, detectedCount groups dockeree eks rke2 = 1 →
        isDetected groups dockeree eks rke2 p →
        AutoDiscoverProvider groups dockeree eks rke2 = (p, false)) ∧
    (1 < detectedCount groups dockeree eks rke2 →
        AutoDiscoverProvider groups dockeree eks rke2 = (Provider.providerNone, true)) ∧
    (detectedCount groups dockeree eks rke2 = 0 →
        AutoDiscoverProvider groups dockeree eks rke2 = (Provider.providerNone, false)) := by
  have hlen := detectedProvidersList_length groups dockeree eks rke2 hnd
  refine ⟨?_, ?_, ?_⟩
  · intro p h1 hdet
    have hl1 : (detectedProvidersList groups dockeree eks rke2).length = 1 := by omega
    obtain ⟨p0, hp0⟩ := List.length_eq_one.mp hl1
    have hpD := isDetected_mem groups dockeree eks rke2 p hdet
    rw [hp0] at hpD
    have hpp : p = p0 := by simpa using hpD
    simp only [AutoDiscoverProvider, hp0, hpp]
    simp
  · intro h1
    simp only [AutoDiscoverProvider]
    rw [if_pos (by omega)]
  · intro h0
    have hl0 : (detectedProvidersList groups dockeree eks rke2).length = 0 := by omega
    simp only [AutoDiscoverProvider]
    rw [if_neg (by omega), if_neg (by omega)]

/-- C6 witness: only the OpenShift API group present. -/
theorem c6_AutoDiscoverProvider_witness :
    AutoDiscoverProvider ["config.openshift.io"] false false false
      = (Provider.openShift, false) :=
  (c6_AutoDiscoverProvider ["config.openshift.io"] false false false (by decide)).1
    Provider.openShift (by decide) (by simp [isDetected])

set_option maxRecDepth 20000 in
/-- C3, counterexample: on a FIPS-enabled configuration with a keystore
secret, `Objects()` does have a side effect on its input: the
`ES_JAVA_OPTS` entry is added to the KeyStoreSecret's Data map. -/
theorem c3_counterexample :
    (esObjects c3FipsConfig []).2.2 ≠ c3FipsConfig ∧
    ((esObjects c3FipsConfig []).2.2.keyStoreSecret.map SecretModel.data).getD []
      = [("ES_JAVA_OPTS", javaOpts c3FipsConfig)] := by
  refine ⟨?_, ?_⟩ <;> decide

/-- C3 (amended): `Objects()` leaves every field of the configuration
unchanged, except that when the LogStorage deletion path is not taken,
no ManagementClusterConnection is present, FIPS mode is enabled and a
KeyStoreSecret is present, the KeyStoreSecret's Data map gains (or
overwrites) the `ES_JAVA_OPTS` entry with the computed JVM options; the
fluentd `Objects()` never changes its configuration. -/
theorem c3_objects_frame (cfg : ESConfig) (kibanaSecrets : List SecretModel)
    (f : FluentdConfig) :
    ((esObjectsMutates cfg →
        (esObjects cfg kibanaSecrets).2.2 = esMutatedConfig cfg) ∧
      (¬ esObjectsMutates cfg → (esObjects cfg kibanaSecrets).2.2 = cfg)) ∧
    (fluentdObjects f).2.2 = f := by
  refine ⟨⟨?_, ?_⟩, rfl⟩
  · intro h
    obtain ⟨h1, h2, h3, _⟩ := h
    simp [esObjects, h1, h2, h3]
  · intro h
    by_cases hdel : (match cfg.logStorage with
        | some ls => ls.deletionTimestamp.isSome
        | none => false) = true
    · simp [esObjects, hdel]
    · by_cases hmcc : cfg.managementClusterConnection = true
      · simp [esObjects, hdel, hmcc]
      · by_cases hfips : cfg.fipsModeEnabled = true
        · have h1 : (match cfg.logStorage with
              | some ls => ls.deletionTimestamp.isSome
              | none => false) = false := by
            simp only [Bool.not_eq_true] at hdel
            exact hdel
          have h2 : cfg.managementClusterConnection = false := by
            simp only [Bool.not_eq_true] at hmcc
            exact hmcc
          have hks : cfg.keyStoreSecret = none := by
            by_contra hks0
            exact h ⟨h1, h2, hfips, Option.ne_none_iff_isSome.mp hks0⟩
          have hmut : esMutatedConfig cfg = cfg := by
            unfold esMutatedConfig
            rw [hks]
            simp only [Option.map_none']
            rw [← hks]
          have happ : (esObjects cfg kibanaSecrets).2.2 = esMutatedConfig cfg := by
            simp [esObjects, h1, h2, hfips]
          rw [happ, hmut]
        · simp [esObjects, hdel, hmcc, hfips]

/-- C3 witness: on a non-FIPS configuration the configuration is
returned untouched, and the fluentd renderer never touches its input. -/
theorem c3_objects_frame_witness :
    (esObjects c3PureConfig []).2.2 = c3PureConfig ∧
    (fluentdObjects c3FluentdConfig).2.2 = c3FluentdConfig :=
  ⟨(c3_objects_frame c3PureConfig [] c3FluentdConfig).1.2 (by decide),
   (c3_objects_frame c3PureConfig [] c3FluentdConfig).2⟩

/-- C8: rendering is deterministic; equal configurations produce equal
object lists (both from the logstorage and the fluentd renderer). -/
theorem c8_objects_deterministic :
    (∀ (c1 c2 : ESConfig) (k1 k2 : List SecretModel), c1 = c2 → k1 = k2 →
      (esObjects c1 k1).1 = (esObjects c2 k2).1 ∧
        (esObjects c1 k1).2.1 = (esObjects c2 k2).2.1) ∧
    (∀ f1 f2 : FluentdConfig, f1 = f2 →
      (fluentdObjects f1).1 = (fluentdObjects f2).1 ∧
        (fluentdObjects f1).2.1 = (fluentdObjects f2).2.1) := by
  constructor
  · rintro c1 _ k1 _ rfl rfl
    exact ⟨rfl, rfl⟩
  · rintro f1 _ rfl
    exact ⟨rfl, rfl⟩

/-- C8 witness: determinism applied at concrete configurations. -/
theorem c8_objects_deterministic_witness :
    ((esObjects c3PureConfig []).1 = (esObjects c3PureConfig []).1 ∧
      (esObjects c3PureConfig []).2.1 = (esObjects c3PureConfig []).2.1) ∧
    ((fluentdObjects c3FluentdConfig).1 = (fluentdObjects c3FluentdConfig).1 ∧
      (fluentdObjects c3FluentdConfig).2.1 = (fluentdObjects c3FluentdConfig).2.1) :=
  ⟨c8_objects_deterministic.1 c3PureConfig c3PureConfig [] [] rfl rfl,
   c8_objects_deterministic.2 c3FluentdConfig c3FluentdConfig rfl⟩

/-- C9: when the LogStorage carries a deletion timestamp, `Objects()`
creates nothing, and deletes exactly those of the Elasticsearch and
Kibana objects that are present in the configuration and do not already
carry a deletion timestamp. -/
theorem c9_deletion_objects (cfg : ESConfig) (ks : List SecretModel) (ls : LogStorageCR)
    (hls : cfg.logStorage = some ls) (hdt : ls.deletionTimestamp.isSome = true) :
    (esObjects cfg ks).1 = [] ∧
    (∀ o : K8sObj, o ∈ (esObjects cfg ks).2.1 ↔
      ((∃ e, cfg.elasticsearch = some e ∧ e.deletionTimestamp = none ∧
          o = K8sObj.fromCfgElasticsearch e) ∨
        (∃ k, cfg.kibana = some k ∧ k.deletionTimestamp = none ∧
          o = K8sObj.fromCfgKibana k))) := by
  have hcond : (match cfg.logStorage with
      | some l => l.deletionTimestamp.isSome
      | none => false) = true := by rw [hls]; exact hdt
  constructor
  · simp [esObjects, hcond]
  · intro o
    simp only [esObjects, hcond, if_true, List.mem_append]
    cases he : cfg.elasticsearch with
    | none =>
      cases hk : cfg.kibana with
      | none => simp
      | some k => by_cases hkd : k.deletionTimestamp = none <;> simp [hkd]
    | some e =>
      cases hk : cfg.kibana with
      | none =>
        by_cases hed : e.deletionTimestamp = none <;> simp [hed]
      | some k =>
        by_cases hed : e.deletionTimestamp = none <;>
          by_cases hkd : k.deletionTimestamp = none <;> simp [hed, hkd]

/-- C9 witness: a deleted LogStorage with a live Elasticsearch CR and no
Kibana CR. -/
theorem c9_deletion_objects_witness :
    (esObjects c9Config []).1 = [] ∧
    (∀ o : K8sObj, o ∈ (esObjects c9Config []).2.1 ↔
      ((∃ e, c9Config.elasticsearch = some e ∧ e.deletionTimestamp = none ∧
          o = K8sObj.fromCfgElasticsearch e) ∨
        (∃ k, c9Config.kibana = some k ∧ k.deletionTimestamp = none ∧
          o = K8sObj.fromCfgKibana k))) :=
  c9_deletion_objects c9Config [] { deletionTimestamp := some 1, nodes := none }
    (by decide) (by decide)

/-- C4: `CreateOrUpdateOrDelete` is invoked only in executions in which
the Tigera API server is ready, the tier watch is established, the
allow-tigera tier exists, the license API is ready and the license key
was fetched; when any of these gates is unmet, `Reconcile` applies
nothing, and (unless the LogCollector CR itself was not found, in which
case the gates are never evaluated) a degraded status is set. -/
theorem c4_reconcile_gates (e : Env) :
    (0 < (Reconcile e).applied → gatesPass e) ∧
    (¬ gatesPass e → (Reconcile e).applied = 0 ∧
      (e.getLogCollector ≠ Fetch3.notFound → (Reconcile e).degraded ≠ none)) := by
  have h2 : ¬ gatesPass e → (Reconcile e).applied = 0 ∧
      (e.getLogCollector ≠ Fetch3.notFound → (Reconcile e).degraded ≠ none) := by
    intro h
    by_cases c1 : e.getLogCollector = Fetch3.notFound
    · refine ⟨by simp [Reconcile, c1], fun hne => absurd c1 hne⟩
    by_cases c2 : e.getLogCollector = Fetch3.otherErr
    · constructor <;> simp [Reconcile, c1, c2]
    by_cases c3 : e.fillDefaultsModified = true ∧ e.patchOk = false
    · constructor <;> simp [Reconcile, c1, c2, c3]
    by_cases c4 : e.apiServerReady = false
    · constructor <;> simp [Reconcile, c1, c2, c3, c4]
    by_cases c5 : e.tierWatchReady = false
    · constructor <;> simp [Reconcile, c1, c2, c3, c4, c5]
    cases c67 : e.tierGet with
    | notFound => constructor <;> simp [Reconcile, c1, c2, c3, c4, c5, c67]
    | otherErr => constructor <;> simp [Reconcile, c1, c2, c3, c4, c5, c67]
    | ok =>
      by_cases c8 : e.licenseAPIReady = false
      · constructor <;> simp [Reconcile, c1, c2, c3, c4, c5, c67, c8]
      cases c9 : e.licenseFetch with
      | notFound => constructor <;> simp [Reconcile, c1, c2, c3, c4, c5, c67, c8, c9]
      | otherErr => constructor <;> simp [Reconcile, c1, c2, c3, c4, c5, c67, c8, c9]
      | ok =>
        exact absurd ⟨by simpa using c4, by simpa using c5, c67, by simpa using c8, c9⟩ h
  refine ⟨?_, h2⟩
  intro ha
  by_contra hg
  have h0 := (h2 hg).1
  omega

/-- C4 witness: with every gate met and every call succeeding the
handler is invoked (twice); with the tier watch gate unmet nothing is
applied. -/
theorem c4_reconcile_gates_witness :
    gatesPass envAllOk ∧ (Reconcile envTierWatchNotReady).applied = 0 :=
  ⟨(c4_reconcile_gates envAllOk).1 (by decide),
   ((c4_reconcile_gates envTierWatchNotReady).2 (by decide)).1⟩

/-- C5: in executions that reach the wait gates (CR fetched, defaulting
patch not failing, API server ready), an early return because the tier
watch is not established, the allow-tigera tier is not found, the
license API is not ready, or the license key is not found produces
`reconcile.Result{RequeueAfter: 10 * time.Second}` with a nil error. -/
theorem c5_requeue_ten_seconds (e : Env)
    (hcr : e.getLogCollector = Fetch3.ok)
    (hpatch : e.fillDefaultsModified = true → e.patchOk = true)
    (hapi : e.apiServerReady = true) :
    (e.tierWatchReady = false →
      Reconcile e = requeue10 "Waiting for Tier watch to be established") ∧
    (e.tierWatchReady = true → e.tierGet = Fetch3.notFound →
      Reconcile e = requeue10 "Waiting for allow-tigera tier to be created") ∧
    (e.tierWatchReady = true → e.tierGet = Fetch3.ok → e.licenseAPIReady = false →
      Reconcile e = requeue10 "Waiting for LicenseKeyAPI to be ready") ∧
    (e.tierWatchReady = true → e.tierGet = Fetch3.ok → e.licenseAPIReady = true →
      e.licenseFetch = Fetch3.notFound →
      Reconcile e = requeue10 "License not found") := by
  have hnp : ¬ (e.fillDefaultsModified = true ∧ e.patchOk = false) := by
    rintro ⟨h1, hpk⟩
    simp [hpatch h1] at hpk
  refine ⟨?_, ?_, ?_, ?_⟩
  · intro h1
    unfold Reconcile
    simp [hcr, hnp, hapi, h1, requeue10]
  · intro h1 h2
    unfold Reconcile
    simp [hcr, hnp, hapi, h1, h2, requeue10]
  · intro h1 h2 h3
    unfold Reconcile
    simp [hcr, hnp, hapi, h1, h2, h3, requeue10]
  · intro h1 h2 h3 h4
    unfold Reconcile
    simp [hcr, hnp, hapi, h1, h2, h3, h4, requeue10]

/-- C5 witness: the tier-watch gate at a concrete execution. -/
theorem c5_requeue_ten_seconds_witness :
    Reconcile envTierWatchNotReady = requeue10 "Waiting for Tier watch to be established" :=
  (c5_requeue_ten_seconds envTierWatchNotReady (by decide) (by decide) (by decide)).1
    (by decide)

end TigeraOperator
